import Mathlib

/-!
Shallow embedding of the papermerge/oidc-app token-verification gateway.

Source files embedded:
  * `src/oidc_client/cache.py` — the two-key TTL token cache
    (`save_token`, `get_token`) over a redis-like store;
  * `src/oidc_app/main.py` — the verification orchestrator
    (`verify_endpoint`).

External collaborators (`utils.get_token`, `utils.authorize_url`,
`http_client.refresh_token`, the JWT signature check) are opaque
parameters, as the specification treats them.  The redis connection is
abstracted as a `RedisLike` interface so that both the pure TTL store
and a failing store can instantiate the same embedded code.
-/

set_option autoImplicit false

namespace OidcApp

/-- Modelled from the spec: `types.TokenData` (file
`src/oidc_client/types.py` is not among the sources).  Section 3 of the
spec gives exactly these four fields: `access_token`, `refresh_token`,
`expires_in` (seconds, used as cache TTL), `refresh_expires_in`
(seconds, the longer TTL). -/
structure TokenData where
  access_token : String
  refresh_token : String
  expires_in : Nat
  refresh_expires_in : Nat
deriving DecidableEq, Repr

/-- The serialized form of a `TokenData` as stored in redis: a field
mapping in which, in a corrupted store, fields may be missing.  A value
produced by `model_dump` always has every field present. -/
structure RawValue where
  access_token : Option String
  refresh_token : Option String
  expires_in : Option Nat
  refresh_expires_in : Option Nat
deriving DecidableEq, Repr

/-- `token.model_dump()`: serialize every field. -/
def model_dump (t : TokenData) : RawValue :=
  ⟨some t.access_token, some t.refresh_token,
   some t.expires_in, some t.refresh_expires_in⟩

/-- Modelled from the spec: the pydantic construction
`types.TokenData(**value)` (the `types` module is not among the
sources).  Per section 3 of the spec all four fields are required, so
construction succeeds exactly when every field is present and fails
with a validation error otherwise. -/
def decodeRaw (v : RawValue) : Except String TokenData :=
  match v.access_token, v.refresh_token, v.expires_in, v.refresh_expires_in with
  | some a, some r, some e, some re => .ok ⟨a, r, e, re⟩
  | _, _, _, _ => .error "validation error"

/-- A stored cache record: the serialized value together with the
absolute time at which its TTL lapses (redis `set ... ex=n` at time
`now` yields `expiresAt = now + n`). -/
structure Entry where
  value : RawValue
  expiresAt : Nat
deriving DecidableEq, Repr

/-- The state of the pure redis store: an association list from key
names to entries; an insertion shadows earlier entries for the same
key, exactly as redis `SET` overwrites. -/
def Store := List (String × Entry)
deriving instance DecidableEq for Store

/-- First-match lookup in the association list. -/
def storeFind (name : String) : Store → Option Entry
  | [] => none
  | (n, e) :: rest => if n = name then some e else storeFind name rest

/-- Insert (overwrite by shadowing). -/
def storeSet (name : String) (e : Entry) (st : Store) : Store :=
  (name, e) :: st

/-- `redis.get(name)` at time `now`: an entry is visible only while its
TTL has not lapsed. -/
def redisGet (st : Store) (now : Nat) (name : String) : Option RawValue :=
  match storeFind name st with
  | some e => if now < e.expiresAt then some e.value else none
  | none => none

/-- The redis-connection interface used by the embedded cache code:
`get` and `set`-with-TTL over a state `σ`, each of which may fail
(network I/O). -/
structure RedisLike (σ : Type) where
  get : String → σ → Except String (Option RawValue)
  set : String → RawValue → Nat → σ → Except String σ

/-- The pure, never-failing redis store observed at time `now`. -/
def pureRedis (now : Nat) : RedisLike Store where
  get name st := .ok (redisGet st now name)
  set name value ex st := .ok (storeSet name ⟨value, now + ex⟩ st)

/-- `cache.save_token(key, token)`: write the serialized token under
`access_{key}` with TTL `expires_in` and under `refresh_{key}` with TTL
`refresh_expires_in`. -/
def save_token {σ : Type} (r : RedisLike σ) (key : String) (token : TokenData)
    (st : σ) : Except String σ :=
  let value := model_dump token
  match r.set ("access_" ++ key) value token.expires_in st with
  | .error e => .error e
  | .ok st1 => r.set ("refresh_" ++ key) value token.refresh_expires_in st1

/-- `cache.get_token(key)`: read `access_{key}`; if absent, set
`access_expired` and read `refresh_{key}`; if that is absent too return
`(None, True)`; otherwise reconstruct the `TokenData` from the raw
value found (construction failure propagates, as the python code has no
handler around `types.TokenData(**value)`). -/
def get_token {σ : Type} (r : RedisLike σ) (key : String) (st : σ) :
    Except String (Option TokenData × Bool) :=
  match r.get ("access_" ++ key) st with
  | .error e => .error e
  | .ok (some v) =>
    match decodeRaw v with
    | .error e => .error e
    | .ok td => .ok (some td, false)
  | .ok none =>
    match r.get ("refresh_" ++ key) st with
    | .error e => .error e
    | .ok none => .ok (none, true)
    | .ok (some v) =>
      match decodeRaw v with
      | .error e => .error e
      | .ok td => .ok (some td, true)

/-- Outcome of `jwt.decode(access_token, public_cert, ...)` in
`verify_endpoint`: success, `ExpiredSignatureError`, or any other
`JWTError` (invalid signature / malformed token). -/
inductive SigCheck where
  | valid
  | expiredSignature
  | jwtError
deriving DecidableEq, Repr

/-- The triple returned by `http_client.refresh_token`. -/
structure RefreshResult where
  token_data : Option TokenData
  status_code : Nat
  content : String
deriving DecidableEq, Repr

/-- The response produced by the orchestrator:
`ok c` is `Response(200)` with the `access_token` cookie set to `c`
when `c` is present; `redirect` is a `RedirectResponse`;
`plainText` is a `PlainTextResponse`. -/
inductive Outcome where
  | ok (cookie : Option String)
  | redirect (statusCode : Nat) (url : String)
  | plainText (statusCode : Nat) (content : String)
deriving DecidableEq, Repr

/-- `verify_endpoint` from `src/oidc_app/main.py`, parameterized over
the redis backend `r`, the signature check `jwtDecode`, the upstream
refresh call `refresh`, the authorize URL and the extracted request
credential `access_token` (the empty string models a missing
credential, python falsiness of `if not access_token`).  Returns the
outcome together with the resulting store state; an exception escaping
the handler is an `Except.error`. -/
def verify_endpoint {σ : Type} (r : RedisLike σ)
    (jwtDecode : String → SigCheck)
    (refresh : TokenData → RefreshResult)
    (authorizeUrl : String)
    (access_token : String)
    (st : σ) : Except String (Outcome × σ) :=
  if access_token = "" then
    .ok (.redirect 307 authorizeUrl, st)
  else
    match jwtDecode access_token with
    | .jwtError => .ok (.redirect 307 authorizeUrl, st)
    | _ =>
      match get_token r access_token st with
      | .error e => .error e
      | .ok (none, _) => .ok (.redirect 307 authorizeUrl, st)
      | .ok (some token_data, access_expired) =>
        if token_data.access_token ≠ access_token then
          .ok (.plainText 500 "cached token differs from original", st)
        else if access_expired then
          match (refresh token_data).token_data with
          | none => .ok (.redirect 307 authorizeUrl, st)
          | some new_token_data =>
            match save_token r new_token_data.access_token new_token_data st with
            | .error e => .error e
            | .ok st1 => .ok (.ok (some new_token_data.access_token), st1)
        else
          .ok (.ok none, st)

/-! ### Helper lemmas -/

/-- The two key prefixes written by `save_token` never collide for the
same key suffix (their lengths differ). -/
theorem access_key_ne_refresh_key (k : String) :
    ("access_" ++ k) ≠ ("refresh_" ++ k) := by
  intro h
  have hl := congrArg String.length h
  simp [String.length_append] at hl
  exact absurd hl (by decide)

/-- A refresh-prefixed key never equals an access-prefixed key, for any
suffixes (the first characters differ). -/
theorem refresh_key_ne_access_key (a b : String) :
    ("refresh_" ++ a) ≠ ("access_" ++ b) := by
  intro h
  have hd := congrArg String.data h
  simp [String.data_append] at hd

/-- An access-prefixed key never equals a refresh-prefixed key, for any
suffixes. -/
theorem access_key_ne_refresh_key_any (a b : String) :
    ("access_" ++ a) ≠ ("refresh_" ++ b) := by
  intro h
  have hd := congrArg String.data h
  simp [String.data_append] at hd

/-- Prepending the access prefix is injective in the key suffix. -/
theorem access_key_inj {a b : String}
    (h : "access_" ++ a = "access_" ++ b) : a = b := by
  have hd := congrArg String.data h
  simp [String.data_append] at hd
  cases a; cases b
  simp at hd
  rw [hd]

/-- Prepending the refresh prefix is injective in the key suffix. -/
theorem refresh_key_inj {a b : String}
    (h : "refresh_" ++ a = "refresh_" ++ b) : a = b := by
  have hd := congrArg String.data h
  simp [String.data_append] at hd
  cases a; cases b
  simp at hd
  rw [hd]

/-- Deserializing a serialized `TokenData` restores it exactly. -/
theorem decodeRaw_model_dump (t : TokenData) :
    decodeRaw (model_dump t) = .ok t := rfl

/-- The store produced by `save_token` on the pure redis store. -/
def pureSave (now : Nat) (key : String) (t : TokenData) (st : Store) : Store :=
  storeSet ("refresh_" ++ key) ⟨model_dump t, now + t.refresh_expires_in⟩
    (storeSet ("access_" ++ key) ⟨model_dump t, now + t.expires_in⟩ st)

/-- On the pure store, `save_token` never fails and produces
`pureSave`. -/
theorem save_token_pureRedis (now : Nat) (key : String) (t : TokenData)
    (st : Store) :
    save_token (pureRedis now) key t st = .ok (pureSave now key t st) := rfl

/-- Reading a key other than the one just written is unaffected by the
write. -/
theorem redisGet_storeSet_ne {st : Store} {now : Nat} {n name : String}
    {e : Entry} (h : n ≠ name) :
    redisGet (storeSet n e st) now name = redisGet st now name := by
  simp [redisGet, storeFind, storeSet, h]

/-- Reading back the key just written, while its TTL has not lapsed. -/
theorem redisGet_storeSet_self {st : Store} {now : Nat} {name : String}
    {e : Entry} (h : now < e.expiresAt) :
    redisGet (storeSet name e st) now name = some e.value := by
  simp [redisGet, storeFind, storeSet, h]

/-- `get_token` on the pure store, when the access-keyed entry is
absent but the refresh-keyed entry is present and deserializes. -/
theorem get_token_pure_refresh_hit {st : Store} {now : Nat} {key : String}
    {v : RawValue} {td : TokenData}
    (h1 : redisGet st now ("access_" ++ key) = none)
    (h2 : redisGet st now ("refresh_" ++ key) = some v)
    (h3 : decodeRaw v = .ok td) :
    get_token (pureRedis now) key st = .ok (some td, true) := by
  simp [get_token, pureRedis, h1, h2, h3]

/-! ### Concrete demonstration values for witnesses -/

/-- A sample token. -/
def tokA : TokenData := ⟨"atok", "rtok", 5, 3600⟩

/-- A sample renewed token with a different access token. -/
def tokB : TokenData := ⟨"btok", "stok", 5, 3600⟩

/-- The store obtained by saving `tokA` at time 0. -/
def demoStore : Store := pureSave 0 "atok" tokA []

/-- A redis backend whose every read fails, modelling a cache-store
outage or timeout. -/
def failRedis : RedisLike Unit where
  get _ _ := .error "connection timeout"
  set _ _ _ st := .ok st

/-! ### Claims -/

/-- Claim C2: the cache lookup follows the two-tier algorithm exactly:
an access-keyed hit returns its `TokenData` with `accessExpired=false`;
otherwise a refresh-keyed hit returns its `TokenData` with
`accessExpired=true`; otherwise `(absent, accessExpired=true)` is
returned; and `(absent, accessExpired=false)` is never returned. -/
theorem C2_lookup_two_tier (st : Store) (now : Nat) (key : String) :
    (∀ v td, redisGet st now ("access_" ++ key) = some v →
      decodeRaw v = .ok td →
      get_token (pureRedis now) key st = .ok (some td, false)) ∧
    (∀ v td, redisGet st now ("access_" ++ key) = none →
      redisGet st now ("refresh_" ++ key) = some v →
      decodeRaw v = .ok td →
      get_token (pureRedis now) key st = .ok (some td, true)) ∧
    (redisGet st now ("access_" ++ key) = none →
      redisGet st now ("refresh_" ++ key) = none →
      get_token (pureRedis now) key st = .ok (none, true)) ∧
    get_token (pureRedis now) key st ≠ .ok (none, false) := by
  refine ⟨?_, ?_, ?_, ?_⟩
  · intro v td h1 h2
    simp [get_token, pureRedis, h1, h2]
  · intro v td h1 h2 h3
    exact get_token_pure_refresh_hit h1 h2 h3
  · intro h1 h2
    simp [get_token, pureRedis, h1, h2]
  · cases h1 : redisGet st now ("access_" ++ key) with
    | some v =>
      cases h2 : decodeRaw v <;> simp [get_token, pureRedis, h1, h2]
    | none =>
      cases h2 : redisGet st now ("refresh_" ++ key) with
      | some v =>
        cases h3 : decodeRaw v <;> simp [get_token, pureRedis, h1, h2, h3]
      | none => simp [get_token, pureRedis, h1, h2]

/-- Claim C2 witness: the three tiers evaluated on concrete stores. -/
theorem C2_lookup_two_tier_witness :
    get_token (pureRedis 0) "atok" demoStore = .ok (some tokA, false) ∧
    get_token (pureRedis 7) "atok" demoStore = .ok (some tokA, true) ∧
    get_token (pureRedis 9999) "atok" demoStore = .ok (none, true) :=
  ⟨(C2_lookup_two_tier demoStore 0 "atok").1 (model_dump tokA) tokA rfl rfl,
   (C2_lookup_two_tier demoStore 7 "atok").2.1 (model_dump tokA) tokA rfl rfl rfl,
   (C2_lookup_two_tier demoStore 9999 "atok").2.2.1 rfl rfl⟩

/-- Claim C9: saving a token with positive TTLs and immediately looking
it up under its own access token reconstructs it exactly, with the
access lease reported fresh. -/
theorem C9_save_lookup_roundtrip (st : Store) (now : Nat) (t : TokenData)
    (h1 : 0 < t.expires_in) (h2 : 0 < t.refresh_expires_in) :
    ∃ st1, save_token (pureRedis now) t.access_token t st = .ok st1 ∧
      get_token (pureRedis now) t.access_token st1 = .ok (some t, false) := by
  refine ⟨pureSave now t.access_token t st,
    save_token_pureRedis now t.access_token t st, ?_⟩
  have ha : redisGet (pureSave now t.access_token t st) now
      ("access_" ++ t.access_token) = some (model_dump t) := by
    rw [pureSave,
      redisGet_storeSet_ne (Ne.symm (access_key_ne_refresh_key _)),
      redisGet_storeSet_self (Nat.lt_add_of_pos_right h1)]
  simp [get_token, pureRedis, ha, decodeRaw_model_dump]

/-- Claim C9 witness: the round trip evaluated at `tokA` on the empty
store at time 0. -/
theorem C9_save_lookup_roundtrip_witness :
    ∃ st1, save_token (pureRedis 0) tokA.access_token tokA [] = .ok st1 ∧
      get_token (pureRedis 0) tokA.access_token st1 = .ok (some tokA, false) :=
  C9_save_lookup_roundtrip [] 0 tokA (by decide) (by decide)

/-- A raw record missing its `refresh_token` field: it cannot be
deserialized to a complete `TokenData`. -/
def corruptValue : RawValue := ⟨some "ctok", none, some 5, some 3600⟩

/-- A store holding only the undecodable record under an access key. -/
def corruptStore : Store :=
  storeSet ("access_" ++ "ctok") ⟨corruptValue, 100⟩ []

/-- Claim C7 counterexample: on a store whose access-keyed record
cannot be deserialized, the lookup fails with a validation error — it
is not treated as absent (which would have produced
`.ok (none, true)`). -/
theorem C7_counterexample :
    get_token (pureRedis 0) "ctok" corruptStore = .error "validation error" ∧
    get_token (pureRedis 0) "ctok" corruptStore ≠ .ok (none, true) :=
  ⟨rfl, fun h => nomatch h⟩

/-- Claim C7 (amended): whenever the lookup returns a found result it
is a completely deserialized `TokenData`, but a stored record that
cannot be deserialized makes the lookup fail with the validation error
(the error propagates to the caller) rather than being treated as
absent. -/
theorem C7_decode_error_propagates (st : Store) (now : Nat) (key : String)
    (v : RawValue) (e : String) :
    (redisGet st now ("access_" ++ key) = some v →
      decodeRaw v = .error e →
      get_token (pureRedis now) key st = .error e) ∧
    (redisGet st now ("access_" ++ key) = none →
      redisGet st now ("refresh_" ++ key) = some v →
      decodeRaw v = .error e →
      get_token (pureRedis now) key st = .error e) := by
  constructor
  · intro h1 h2
    simp [get_token, pureRedis, h1, h2]
  · intro h1 h2 h3
    simp [get_token, pureRedis, h1, h2, h3]

/-- A store holding an undecodable record under a refresh key. -/
def corruptStore2 : Store :=
  storeSet ("refresh_" ++ "brok") ⟨⟨none, some "r", some 1, some 2⟩, 50⟩ []

/-- Claim C7 witness: the validation error propagates on a concrete
store corrupted under the refresh key. -/
theorem C7_decode_error_propagates_witness :
    get_token (pureRedis 0) "brok" corruptStore2 = .error "validation error" :=
  (C7_decode_error_propagates corruptStore2 0 "brok"
    ⟨none, some "r", some 1, some 2⟩ "validation error").2 rfl rfl rfl

/-- A store seeded with a corrupted record: the `TokenData` stored
under `tokA`'s access key carries a different access token. -/
def mismTok : TokenData := ⟨"other", "r2", 5, 3600⟩

/-- The corrupt store for the C1 witness. -/
def mismStore : Store :=
  storeSet ("access_" ++ "atok") ⟨model_dump mismTok, 100⟩ []

/-- Claim C1: when the signature check passes (or merely
time-expires) and the cache lookup returns a `TokenData` whose
`access_token` differs from the presented credential, the orchestrator
returns the 500 diagnostic response and never `Authenticated`; the
store is returned unmodified, no cookie is attached, and the refresh
collaborator is never consulted (the result is the same for every
`refresh` function). -/
theorem C1_corruption_yields_server_error {σ : Type} (r : RedisLike σ)
    (st : σ) (sig : String → SigCheck) (url tok : String) (td : TokenData)
    (b : Bool)
    (hne : tok ≠ "") (hsig : sig tok ≠ .jwtError)
    (hq : get_token r tok st = .ok (some td, b))
    (hmis : td.access_token ≠ tok) :
    ∀ refresh, verify_endpoint r sig refresh url tok st =
      .ok (.plainText 500 "cached token differs from original", st) := by
  intro refresh
  cases hs : sig tok with
  | jwtError => exact absurd hs hsig
  | valid => simp [verify_endpoint, hne, hs, hq, hmis]
  | expiredSignature => simp [verify_endpoint, hne, hs, hq, hmis]

/-- Claim C1 witness: the corrupt store evaluated concretely. -/
theorem C1_corruption_yields_server_error_witness :
    verify_endpoint (pureRedis 0) (fun _ => .valid)
      (fun _ => ⟨none, 0, ""⟩) "https://idp/authorize" "atok" mismStore =
      .ok (.plainText 500 "cached token differs from original", mismStore) :=
  C1_corruption_yields_server_error (pureRedis 0) mismStore
    (fun _ => .valid) "https://idp/authorize" "atok" mismTok false
    (by decide) (by decide) rfl (by decide) (fun _ => ⟨none, 0, ""⟩)

/-- Claim C3: on a refresh-needed cache hit whose upstream refresh
fails (returns absent), the orchestrator redirects to the authorize URL
and the store is returned exactly as it was — no save happens on the
refresh-failure path. -/
theorem C3_refresh_failure_redirects {σ : Type} (r : RedisLike σ) (st : σ)
    (sig : String → SigCheck) (refresh : TokenData → RefreshResult)
    (url tok : String) (td : TokenData)
    (hne : tok ≠ "") (hsig : sig tok ≠ .jwtError)
    (hq : get_token r tok st = .ok (some td, true))
    (hmatch : td.access_token = tok)
    (hr : (refresh td).token_data = none) :
    verify_endpoint r sig refresh url tok st = .ok (.redirect 307 url, st) := by
  cases hs : sig tok with
  | jwtError => exact absurd hs hsig
  | valid => simp [verify_endpoint, hne, hs, hq, hmatch, hr]
  | expiredSignature => simp [verify_endpoint, hne, hs, hq, hmatch, hr]

/-- Claim C3 witness: a lapsed access lease plus an upstream 401,
evaluated concretely; the resulting store is `demoStore` itself. -/
theorem C3_refresh_failure_redirects_witness :
    verify_endpoint (pureRedis 7) (fun _ => .expiredSignature)
      (fun _ => ⟨none, 401, "unauthorized"⟩) "https://idp/authorize" "atok"
      demoStore = .ok (.redirect 307 "https://idp/authorize", demoStore) :=
  C3_refresh_failure_redirects (pureRedis 7) demoStore
    (fun _ => .expiredSignature) (fun _ => ⟨none, 401, "unauthorized"⟩)
    "https://idp/authorize" "atok" tokA
    (by decide) (by decide) rfl rfl rfl

/-- Claim C4: on a refresh-needed cache hit whose upstream refresh
succeeds, the orchestrator persists the new `TokenData` through the
cache's save operation keyed by the new access token, attaches the new
access token as the response cookie, and returns the 200 response. -/
theorem C4_refresh_success_saves_and_sets_cookie {σ : Type}
    (r : RedisLike σ) (st st1 : σ) (sig : String → SigCheck)
    (refresh : TokenData → RefreshResult) (url tok : String)
    (td nt : TokenData)
    (hne : tok ≠ "") (hsig : sig tok ≠ .jwtError)
    (hq : get_token r tok st = .ok (some td, true))
    (hmatch : td.access_token = tok)
    (hr : (refresh td).token_data = some nt)
    (hsave : save_token r nt.access_token nt st = .ok st1) :
    verify_endpoint r sig refresh url tok st =
      .ok (.ok (some nt.access_token), st1) := by
  cases hs : sig tok with
  | jwtError => exact absurd hs hsig
  | valid => simp [verify_endpoint, hne, hs, hq, hmatch, hr, hsave]
  | expiredSignature => simp [verify_endpoint, hne, hs, hq, hmatch, hr, hsave]

/-- Claim C4 witness: a successful refresh evaluated concretely; the
result carries `tokB`'s access token as cookie and the store has been
extended by `save_token`. -/
theorem C4_refresh_success_saves_and_sets_cookie_witness :
    verify_endpoint (pureRedis 7) (fun _ => .expiredSignature)
      (fun _ => ⟨some tokB, 200, ""⟩) "https://idp/authorize" "atok"
      demoStore =
      .ok (.ok (some tokB.access_token),
        pureSave 7 tokB.access_token tokB demoStore) :=
  C4_refresh_success_saves_and_sets_cookie (pureRedis 7) demoStore
    (pureSave 7 tokB.access_token tokB demoStore)
    (fun _ => .expiredSignature) (fun _ => ⟨some tokB, 200, ""⟩)
    "https://idp/authorize" "atok" tokA tokB
    (by decide) (by decide) rfl rfl rfl
    (save_token_pureRedis 7 tokB.access_token tokB demoStore)

/-- Claim C5: a request presenting a token that fails the signature
check (any `JWTError` other than an expired signature) is redirected to
the authorize URL, with no cache I/O at all: the result is the same for
every backend, every store state and every refresh function, and the
store is returned untouched. -/
theorem C5_invalid_signature_no_cache_io {σ : Type} (r : RedisLike σ)
    (st : σ) (sig : String → SigCheck) (refresh : TokenData → RefreshResult)
    (url tok : String)
    (hne : tok ≠ "") (hsig : sig tok = .jwtError) :
    verify_endpoint r sig refresh url tok st = .ok (.redirect 307 url, st) := by
  simp [verify_endpoint, hne, hsig]

/-- Claim C5 witness: an invalid signature evaluated concretely, on a
backend that would fail if any cache I/O were attempted. -/
theorem C5_invalid_signature_no_cache_io_witness :
    verify_endpoint failRedis (fun _ => .jwtError)
      (fun _ => ⟨none, 0, ""⟩) "https://idp/authorize" "garbage" () =
      .ok (.redirect 307 "https://idp/authorize", ()) :=
  C5_invalid_signature_no_cache_io failRedis ()
    (fun _ => .jwtError) (fun _ => ⟨none, 0, ""⟩)
    "https://idp/authorize" "garbage" (by decide) rfl

/-- Claim C6: when the signature check passes (valid or expired) but
neither the access-keyed nor the refresh-keyed entry exists, the
orchestrator redirects to the authorize URL — never the 500 corruption
response, since the absence check precedes the key-mismatch check. -/
theorem C6_double_miss_redirects {σ : Type} (r : RedisLike σ) (st : σ)
    (sig : String → SigCheck) (refresh : TokenData → RefreshResult)
    (url tok : String)
    (hne : tok ≠ "") (hsig : sig tok ≠ .jwtError)
    (h1 : r.get ("access_" ++ tok) st = .ok none)
    (h2 : r.get ("refresh_" ++ tok) st = .ok none) :
    verify_endpoint r sig refresh url tok st = .ok (.redirect 307 url, st) := by
  have hq : get_token r tok st = .ok (none, true) := by
    simp [get_token, h1, h2]
  cases hs : sig tok with
  | jwtError => exact absurd hs hsig
  | valid => simp [verify_endpoint, hne, hs, hq]
  | expiredSignature => simp [verify_endpoint, hne, hs, hq]

/-- Claim C6 witness: the empty store evaluated concretely. -/
theorem C6_double_miss_redirects_witness :
    verify_endpoint (pureRedis 0) (fun _ => .valid)
      (fun _ => ⟨none, 0, ""⟩) "https://idp/authorize" "atok" [] =
      .ok (.redirect 307 "https://idp/authorize", ([] : Store)) :=
  C6_double_miss_redirects (pureRedis 0) [] (fun _ => .valid)
    (fun _ => ⟨none, 0, ""⟩) "https://idp/authorize" "atok"
    (by decide) (by decide) rfl rfl

/-- Claim C8 counterexample: with a failing cache backend and a valid
signature, the orchestrator's result is the propagated cache error, not
the redirect that treating the failure as a miss would produce. -/
theorem C8_counterexample :
    verify_endpoint failRedis (fun _ => .valid) (fun _ => ⟨none, 401, ""⟩)
      "https://idp/authorize" "tok" () = .error "connection timeout" ∧
    verify_endpoint failRedis (fun _ => .valid) (fun _ => ⟨none, 401, ""⟩)
      "https://idp/authorize" "tok" () ≠
      .ok (.redirect 307 "https://idp/authorize", ()) :=
  ⟨rfl, fun h => nomatch h⟩

/-- Claim C8 (amended): a cache-store failure during the orchestrator's
lookup is not recovered: the error propagates out of the orchestrator
uncaught (surfacing as a generic server error at the framework level)
instead of being treated as a miss. -/
theorem C8_cache_failure_propagates {σ : Type} (r : RedisLike σ) (st : σ)
    (sig : String → SigCheck) (refresh : TokenData → RefreshResult)
    (url tok e : String)
    (hne : tok ≠ "") (hsig : sig tok ≠ .jwtError)
    (hget : r.get ("access_" ++ tok) st = .error e) :
    verify_endpoint r sig refresh url tok st = .error e := by
  have hq : get_token r tok st = .error e := by
    simp [get_token, hget]
  cases hs : sig tok with
  | jwtError => exact absurd hs hsig
  | valid => simp [verify_endpoint, hne, hs, hq]
  | expiredSignature => simp [verify_endpoint, hne, hs, hq]

/-- Claim C8 witness: the propagation evaluated concretely on the
failing backend with an expired-signature credential. -/
theorem C8_cache_failure_propagates_witness :
    verify_endpoint failRedis (fun _ => .expiredSignature)
      (fun _ => ⟨none, 0, ""⟩) "https://idp/authorize" "tk2" () =
      .error "connection timeout" :=
  C8_cache_failure_propagates failRedis () (fun _ => .expiredSignature)
    (fun _ => ⟨none, 0, ""⟩) "https://idp/authorize" "tk2"
    "connection timeout" (by decide) (by decide) rfl

/-- The successful-refresh path of the orchestrator on the pure store:
given an access miss, a refresh-keyed hit that deserializes to a
matching token, and a successful upstream refresh, the result is the
200 response with the new cookie over the store extended by
`pureSave`. -/
theorem verify_pure_refresh_success {st : Store} {now : Nat}
    {sig : String → SigCheck} {refresh : TokenData → RefreshResult}
    {url tok : String} {v : RawValue} {td nt : TokenData}
    (hne : tok ≠ "") (hsig : sig tok ≠ .jwtError)
    (h1 : redisGet st now ("access_" ++ tok) = none)
    (h2 : redisGet st now ("refresh_" ++ tok) = some v)
    (h3 : decodeRaw v = .ok td)
    (hmatch : td.access_token = tok)
    (hr : (refresh td).token_data = some nt) :
    verify_endpoint (pureRedis now) sig refresh url tok st =
      .ok (.ok (some nt.access_token), pureSave now nt.access_token nt st) := by
  have hq := get_token_pure_refresh_hit h1 h2 h3
  cases hs : sig tok with
  | jwtError => exact absurd hs hsig
  | valid =>
    simp [verify_endpoint, hne, hs, hq, hmatch, hr, save_token_pureRedis]
  | expiredSignature =>
    simp [verify_endpoint, hne, hs, hq, hmatch, hr, save_token_pureRedis]

/-- Claim C10: the successful-refresh path writes only under the new
access token's keys: the old credential's access-keyed and
refresh-keyed reads are unchanged by the save, so a client
re-presenting the old credential while its refresh-keyed entry is live
again observes `accessExpired=true` and the orchestrator again takes
the refresh path. -/
theorem C10_old_keys_untouched_refresh_again (st : Store) (now : Nat)
    (sig : String → SigCheck) (refresh : TokenData → RefreshResult)
    (url tok : String) (v : RawValue) (td nt : TokenData)
    (hne : tok ≠ "") (hsig : sig tok ≠ .jwtError)
    (h1 : redisGet st now ("access_" ++ tok) = none)
    (h2 : redisGet st now ("refresh_" ++ tok) = some v)
    (h3 : decodeRaw v = .ok td)
    (hmatch : td.access_token = tok)
    (hr : (refresh td).token_data = some nt)
    (hnew : nt.access_token ≠ tok) :
    verify_endpoint (pureRedis now) sig refresh url tok st =
      .ok (.ok (some nt.access_token), pureSave now nt.access_token nt st) ∧
    redisGet (pureSave now nt.access_token nt st) now ("access_" ++ tok)
      = none ∧
    redisGet (pureSave now nt.access_token nt st) now ("refresh_" ++ tok)
      = some v ∧
    get_token (pureRedis now) tok (pureSave now nt.access_token nt st)
      = .ok (some td, true) ∧
    verify_endpoint (pureRedis now) sig refresh url tok
      (pureSave now nt.access_token nt st) =
      .ok (.ok (some nt.access_token),
        pureSave now nt.access_token nt (pureSave now nt.access_token nt st)) := by
  have ha1 : redisGet (pureSave now nt.access_token nt st) now
      ("access_" ++ tok) = none := by
    rw [pureSave,
      redisGet_storeSet_ne (refresh_key_ne_access_key _ _),
      redisGet_storeSet_ne (fun hc => hnew (access_key_inj hc)), h1]
  have ha2 : redisGet (pureSave now nt.access_token nt st) now
      ("refresh_" ++ tok) = some v := by
    rw [pureSave,
      redisGet_storeSet_ne (fun hc => hnew (refresh_key_inj hc)),
      redisGet_storeSet_ne (access_key_ne_refresh_key_any _ _), h2]
  exact ⟨verify_pure_refresh_success hne hsig h1 h2 h3 hmatch hr,
    ha1, ha2, get_token_pure_refresh_hit ha1 ha2 h3,
    verify_pure_refresh_success hne hsig ha1 ha2 h3 hmatch hr⟩

/-- A store holding only `tokA`'s refresh-keyed entry, as after the
access TTL lapsed. -/
def refreshOnlyStore : Store :=
  storeSet ("refresh_" ++ "atok") ⟨model_dump tokA, 3600⟩ []

/-- Claim C10 witness: after a successful refresh to `tokB`, the old
credential's lookup on the updated store still reports the stale
token with `accessExpired=true`. -/
theorem C10_old_keys_untouched_refresh_again_witness :
    get_token (pureRedis 7) "atok"
      (pureSave 7 tokB.access_token tokB refreshOnlyStore) =
      .ok (some tokA, true) :=
  (C10_old_keys_untouched_refresh_again refreshOnlyStore 7
    (fun _ => .expiredSignature) (fun _ => ⟨some tokB, 200, ""⟩)
    "https://idp/authorize" "atok" (model_dump tokA) tokA tokB
    (by decide) (by decide) rfl rfl rfl rfl rfl (by decide)).2.2.2.1

end OidcApp
